import Mathlib

/- Verification development for the container-use single-tenant MCP server and CLI.
   The Go sources (mcpserver/singletenant.go, cmd/container-use/main.go) are shallowly
   embedded as pure Lean functions; external collaborators (repository facade,
   environment operations, dagger client) are modelled as oracle records whose
   fields give the result of each call. -/

namespace ContainerUse

/-- Result of an MCP tool call (mirrors mcp.CallToolResult: an error flag plus text content). -/
structure CallToolResult where
  isError : Bool
  text : String
deriving DecidableEq

/-- Mirrors mcp.NewToolResultText. -/
def NewToolResultText (t : String) : CallToolResult := ⟨false, t⟩

/-- Mirrors mcp.NewToolResultError. -/
def NewToolResultError (msg : String) : CallToolResult := ⟨true, msg⟩

/-- Mirrors mcp.NewToolResultErrorFromErr, which formats "text: err". -/
def NewToolResultErrorFromErr (msg errText : String) : CallToolResult :=
  ⟨true, msg ++ ": " ++ errText⟩

/-- An MCP tool-call request: the typed arguments present in the call, as
    association lists (a key absent from the list was not supplied by the caller). -/
structure CallToolRequest where
  strArgs : List (String × String)
  boolArgs : List (String × Bool)
  intListArgs : List (String × List Int)
deriving DecidableEq

/-- Mirrors request.GetString(key, default): the argument if present, else the default. -/
def CallToolRequest.getString (r : CallToolRequest) (key dflt : String) : String :=
  ((r.strArgs.lookup key).getD dflt)

/-- Mirrors request.RequireString(key): the argument if present, else an error. -/
def CallToolRequest.requireString (r : CallToolRequest) (key : String) : Except String String :=
  match r.strArgs.lookup key with
  | some v => Except.ok v
  | none => Except.error ("required argument \"" ++ key ++ "\" not found")

/-- Mirrors request.GetBool(key, default). -/
def CallToolRequest.getBool (r : CallToolRequest) (key : String) (dflt : Bool) : Bool :=
  ((r.boolArgs.lookup key).getD dflt)

/-- Mirrors the ports extraction pattern request.GetArguments()["ports"].([]any) with
    an empty list when absent. -/
def CallToolRequest.getIntList (r : CallToolRequest) (key : String) : List Int :=
  ((r.intListArgs.lookup key).getD [])

/-- The per-process single-tenant session state: currentEnvironmentID and
    currentEnvironmentSource from singletenant.go (the mutex only serializes
    access and is not part of the sequential semantics). -/
structure SessionState where
  currentEnvironmentID : String
  currentEnvironmentSource : String
deriving DecidableEq

/-- The error message both single-tenant getters return when their value is empty. -/
def noCurrentEnvironmentMessage : String :=
  "no current environment set. Use environment_create or environment_open first"

/-- Mirrors getCurrentEnvironmentID: error when the stored ID is empty. -/
def getCurrentEnvironmentID (st : SessionState) : Except String String :=
  if st.currentEnvironmentID = "" then Except.error noCurrentEnvironmentMessage
  else Except.ok st.currentEnvironmentID

/-- Mirrors getCurrentEnvironmentSource: error when the stored source is empty. -/
def getCurrentEnvironmentSource (st : SessionState) : Except String String :=
  if st.currentEnvironmentSource = "" then Except.error noCurrentEnvironmentMessage
  else Except.ok st.currentEnvironmentSource

/-- Mirrors setCurrentEnvironmentID. -/
def setCurrentEnvironmentID (st : SessionState) (envID : String) : SessionState :=
  { st with currentEnvironmentID := envID }

/-- Mirrors setCurrentEnvironmentSource. -/
def setCurrentEnvironmentSource (st : SessionState) (envSource : String) : SessionState :=
  { st with currentEnvironmentSource := envSource }

/-- Mirrors setCurrentEnvironment (sets both fields). -/
def setCurrentEnvironment (_st : SessionState) (envID envSource : String) : SessionState :=
  ⟨envID, envSource⟩

/-- A single setter call on the session state, for reasoning about interleavings
    of the three setters exported by singletenant.go. -/
inductive SessionOp where
  | setID (envID : String)
  | setSource (envSource : String)
  | setBoth (envID envSource : String)
deriving DecidableEq

/-- Apply one setter call. -/
def applySessionOp (st : SessionState) : SessionOp → SessionState
  | SessionOp.setID v => setCurrentEnvironmentID st v
  | SessionOp.setSource v => setCurrentEnvironmentSource st v
  | SessionOp.setBoth i s => setCurrentEnvironment st i s

/-- Run a sequential trace of setter calls. -/
def runSessionOps (st : SessionState) (ops : List SessionOp) : SessionState :=
  ops.foldl applySessionOp st

/-- Specification helper: the last value a trace of setter calls stored into the
    ID field (the initial value if no setter wrote that field). -/
def lastStoredID (init : String) : List SessionOp → String
  | [] => init
  | SessionOp.setID v :: rest => lastStoredID v rest
  | SessionOp.setSource _ :: rest => lastStoredID init rest
  | SessionOp.setBoth i _ :: rest => lastStoredID i rest

/-- Specification helper: the last value a trace of setter calls stored into the
    source field. -/
def lastStoredSource (init : String) : List SessionOp → String
  | [] => init
  | SessionOp.setID _ :: rest => lastStoredSource init rest
  | SessionOp.setSource v :: rest => lastStoredSource v rest
  | SessionOp.setBoth _ s :: rest => lastStoredSource s rest

theorem runSessionOps_currentID (ops : List SessionOp) : ∀ st : SessionState,
    (runSessionOps st ops).currentEnvironmentID = lastStoredID st.currentEnvironmentID ops := by
  induction ops with
  | nil => intro st; rfl
  | cons op rest ih =>
    intro st
    cases op <;>
      simp [runSessionOps, lastStoredID, applySessionOp, setCurrentEnvironmentID,
        setCurrentEnvironmentSource, setCurrentEnvironment, List.foldl] <;>
      exact ih _

theorem runSessionOps_currentSource (ops : List SessionOp) : ∀ st : SessionState,
    (runSessionOps st ops).currentEnvironmentSource
      = lastStoredSource st.currentEnvironmentSource ops := by
  induction ops with
  | nil => intro st; rfl
  | cons op rest ih =>
    intro st
    cases op <;>
      simp [runSessionOps, lastStoredSource, applySessionOp, setCurrentEnvironmentID,
        setCurrentEnvironmentSource, setCurrentEnvironment, List.foldl] <;>
      exact ih _

/-- C5: for every interleaving (sequential trace) of setter calls, the single-tenant
    getters fail with the NoCurrentEnvironment message exactly when the stored value
    is the empty string, i.e. when the last value a setter stored into that field
    (starting from the initial state) is empty; otherwise each getter returns that
    last stored value. -/
theorem c5_session_getters (st : SessionState) (ops : List SessionOp) :
    getCurrentEnvironmentID (runSessionOps st ops)
      = (if lastStoredID st.currentEnvironmentID ops = ""
          then Except.error noCurrentEnvironmentMessage
          else Except.ok (lastStoredID st.currentEnvironmentID ops))
    ∧ getCurrentEnvironmentSource (runSessionOps st ops)
      = (if lastStoredSource st.currentEnvironmentSource ops = ""
          then Except.error noCurrentEnvironmentMessage
          else Except.ok (lastStoredSource st.currentEnvironmentSource ops)) := by
  constructor
  · rw [getCurrentEnvironmentID, runSessionOps_currentID]
  · rw [getCurrentEnvironmentSource, runSessionOps_currentSource]

/-- Modelled from the spec: EnvironmentConfig of the environment package (base image,
    setup commands, environment variables, workdir); the environment package itself
    is not among the provided sources, and only its carrying of these fields matters
    to the handlers in singletenant.go. -/
structure EnvironmentConfig where
  BaseImage : String
  SetupCommands : List String
  Env : List String
  Workdir : String
deriving DecidableEq

/-- Modelled from the spec: the persistent state of an environment (title, config,
    update timestamp as Unix nanoseconds), as read by singletenant.go and main.go
    through env.State. -/
structure EnvState where
  Title : String
  Config : EnvironmentConfig
  UpdatedAt : Int
deriving DecidableEq

/-- Modelled from the spec: environment.EnvironmentInfo, carrying the ID and state
    used by environmentResponseFromEnvInfo and the prune command. -/
structure EnvironmentInfo where
  ID : String
  State : EnvState
deriving DecidableEq

/-- Modelled from the spec: environment.Environment, which embeds EnvironmentInfo
    and carries the active services (each service is kept as its marshaled form,
    since its structure is irrelevant to the handlers). -/
structure Environment where
  info : EnvironmentInfo
  Services : List String
deriving DecidableEq

/-- Mirrors the EnvironmentResponse struct of singletenant.go, including its JSON key
    names (kept in the marshal functions below). -/
structure EnvironmentResponse where
  ID : String
  Title : String
  Config : EnvironmentConfig
  RemoteRef : String
  CheckoutCommand : String
  LogCommand : String
  DiffCommand : String
  Services : List String
deriving DecidableEq

/-- Mirrors environmentResponseFromEnvInfo: builds the response with the
    container-use remote ref and the three share-with-user command strings.
    EnvironmentInfo has no active services, so Services is left empty. -/
def environmentResponseFromEnvInfo (envInfo : EnvironmentInfo) : EnvironmentResponse :=
  { ID := envInfo.ID
    Title := envInfo.State.Title
    Config := envInfo.State.Config
    RemoteRef := "container-use/" ++ envInfo.ID
    CheckoutCommand := "container-use checkout " ++ envInfo.ID
    LogCommand := "container-use log " ++ envInfo.ID
    DiffCommand := "container-use diff " ++ envInfo.ID
    Services := [] }

/-- Mirrors environmentResponseFromEnv: the info response plus the live services. -/
def environmentResponseFromEnv (env : Environment) : EnvironmentResponse :=
  { environmentResponseFromEnvInfo env.info with Services := env.Services }

/-- JSON escaping of a single character (quote, backslash, newline; all other
    characters pass through), approximating Go encoding/json for the string
    values that occur here. -/
def jsonEscapeChar (c : Char) : String :=
  if c = '\"' then "\\\""
  else if c = '\\' then "\\\\"
  else if c = '\n' then "\\n"
  else String.singleton c

/-- A JSON string literal. -/
def jsonQuote (s : String) : String :=
  "\"" ++ String.join (s.toList.map jsonEscapeChar) ++ "\""

/-- A JSON array of strings. -/
def jsonStringArray (l : List String) : String :=
  "[" ++ String.intercalate "," (l.map jsonQuote) ++ "]"

/-- Modelled from the spec: the JSON form of EnvironmentConfig (its json tags live in
    the environment package, outside the provided sources). -/
def marshalEnvironmentConfig (c : EnvironmentConfig) : String :=
  "\x7b\"base_image\":" ++ jsonQuote c.BaseImage
    ++ ",\"setup_commands\":" ++ jsonStringArray c.SetupCommands
    ++ ",\"env\":" ++ jsonStringArray c.Env
    ++ ",\"workdir\":" ++ jsonQuote c.Workdir ++ "\x7d"

/-- JSON marshaling of EnvironmentResponse with the json tags declared in
    singletenant.go (services carries omitempty). -/
def marshalEnvironmentResponse (resp : EnvironmentResponse) : String :=
  "\x7b\"id\":" ++ jsonQuote resp.ID
    ++ ",\"title\":" ++ jsonQuote resp.Title
    ++ ",\"config\":" ++ marshalEnvironmentConfig resp.Config
    ++ ",\"remote_ref\":" ++ jsonQuote resp.RemoteRef
    ++ ",\"checkout_command_to_share_with_user\":" ++ jsonQuote resp.CheckoutCommand
    ++ ",\"log_command_to_share_with_user\":" ++ jsonQuote resp.LogCommand
    ++ ",\"diff_command_to_share_with_user\":" ++ jsonQuote resp.DiffCommand
    ++ (if resp.Services = [] then "" else ",\"services\":" ++ jsonStringArray resp.Services)
    ++ "\x7d"

/-- Mirrors marshalEnvironment. -/
def marshalEnvironment (env : Environment) : String :=
  marshalEnvironmentResponse (environmentResponseFromEnv env)

/-- Mirrors marshalEnvironmentInfo. -/
def marshalEnvironmentInfo (envInfo : EnvironmentInfo) : String :=
  marshalEnvironmentResponse (environmentResponseFromEnvInfo envInfo)

/-- Oracle for the external collaborators of the tool handlers: each field gives
    the result of the corresponding repository / environment call, keyed by the
    arguments the Go code passes (a repository is identified by its source path). -/
structure World where
  repoOpen : String → Except String Unit
  getEnv : String → String → Except String Environment
  create : String → String → String → String → Except String Environment
  isDirty : String → Except String (Bool × String)
  update : String → Environment → String → Except String Unit
  updateFile : String → Environment → String → String → Except String Unit
  run : Environment → String → String → Bool → Except String String
  runBackground : Environment → String → String → List Int → Bool → Except String String
  fileWrite : Environment → String → String → String → Except String Unit
  fileEdit : Environment → String → String → String → String → String → Except String Unit
  fileDelete : Environment → String → String → Except String Unit

/-- Boolean success test on Except, used in theorem statements. -/
def isSuccess {α : Type} : Except String α → Bool
  | Except.ok _ => true
  | Except.error _ => false

/-- Mirrors openRepository: in single-tenant mode a missing (empty)
    environment_source falls back to the session state; in multi-tenant mode the
    argument is required. The opened repository is identified by its source path. -/
def openRepository (singleTenant : Bool) (w : World) (st : SessionState)
    (r : CallToolRequest) : Except String String :=
  let sourceRes : Except String String :=
    if singleTenant then
      let source := r.getString "environment_source" ""
      if source = "" then getCurrentEnvironmentSource st else Except.ok source
    else
      r.requireString "environment_source"
  match sourceRes with
  | Except.error e => Except.error e
  | Except.ok source =>
    match w.repoOpen source with
    | Except.error e => Except.error ("unable to open repository: " ++ e)
    | Except.ok _ => Except.ok source

/-- Mirrors openEnvironment: resolves the repository, then the environment ID
    (session-state fallback in single-tenant mode), checks the dagger client and
    fetches the environment. -/
def openEnvironment (singleTenant daggerPresent : Bool) (w : World) (st : SessionState)
    (r : CallToolRequest) : Except String (String × Environment) :=
  match openRepository singleTenant w st r with
  | Except.error e => Except.error e
  | Except.ok source =>
    let envIDRes : Except String String :=
      if singleTenant then
        let envID := r.getString "environment_id" ""
        if envID = "" then getCurrentEnvironmentID st else Except.ok envID
      else
        r.requireString "environment_id"
    match envIDRes with
    | Except.error e => Except.error e
    | Except.ok envID =>
      if daggerPresent = false then Except.error "dagger client not found in context"
      else
        match w.getEnv source envID with
        | Except.error e => Except.error ("unable to get environment: " ++ e)
        | Except.ok env => Except.ok (source, env)

/-- The session-state update both environment_open and environment_create perform
    in single-tenant mode on success: set the current environment to the new ID and
    the environment_source argument, the RequireString error being discarded. -/
def singleTenantSessionUpdate (singleTenant : Bool) (st : SessionState)
    (r : CallToolRequest) (env : Environment) : SessionState :=
  if singleTenant then
    setCurrentEnvironment st env.info.ID
      (match r.requireString "environment_source" with
        | Except.ok s => s
        | Except.error _ => "")
  else st

/-- Outcome of the environment_open handler: the Go (result, error) pair folded
    into an Except, plus the session state after the call. -/
structure OpenOutcome where
  result : Except String CallToolResult
  state : SessionState

/-- Mirrors the handler of createEnvironmentOpenTool: open the environment, then in
    single-tenant mode record it (with the environment_source argument, empty when
    the argument is absent, since the RequireString error is discarded) as the
    current environment. -/
def environmentOpenHandler (singleTenant daggerPresent : Bool) (w : World)
    (st : SessionState) (r : CallToolRequest) : OpenOutcome :=
  match openEnvironment singleTenant daggerPresent w st r with
  | Except.error e => ⟨Except.error e, st⟩
  | Except.ok (_, env) =>
    ⟨Except.ok (NewToolResultText (marshalEnvironment env)),
     singleTenantSessionUpdate singleTenant st r env⟩

/-- Outcome of the environment_create handler: result, session state after the
    call, and whether repo.Create was invoked. -/
structure CreateOutcome where
  result : Except String CallToolResult
  state : SessionState
  createCalled : Bool

/-- The error message of the single-tenant replace guard in
    createEnvironmentCreateTool, surfacing the existing environment ID. -/
def createGuardMessage (currentEnvID : String) : String :=
  "environment_id " ++ currentEnvID
    ++ " already exists for this session. Tools can be used directly. You can environment_open "
    ++ currentEnvID
    ++ " for more information, or set allow_replace=true to destructively replace it"

/-- The dirty-working-tree warning appended to the create result, embedding the
    marshaled response, the environment_source argument and the IsDirty status. -/
def dirtyWarningText (out source status : String) : String :=
  out ++ "\n\nCRITICAL: You MUST inform the user that the repository " ++ source
    ++ " has uncommitted changes that are NOT included in this environment. The environment was created from the last committed state only.\n\nUncommitted changes detected:\n"
    ++ status
    ++ "\n\nYou MUST tell the user: To include these changes in the environment, they need to commit them first using git commands outside the environment."

/-- The single-tenant allow_replace guard of createEnvironmentCreateTool: the
    error message (if any) produced before creating the environment. -/
def createReplaceGuard (singleTenant : Bool) (st : SessionState)
    (r : CallToolRequest) : Option String :=
  if singleTenant then
    if r.getBool "allow_replace" false = false then
      match getCurrentEnvironmentID st with
      | Except.ok currentEnvID => some (createGuardMessage currentEnvID)
      | Except.error _ => none
    else none
  else none

/-- Mirrors the handler of createEnvironmentCreateTool: open the repository,
    require the title, apply the single-tenant allow_replace guard, create the
    environment, record it as current (single-tenant), and report IsDirty. -/
def environmentCreateHandler (singleTenant daggerPresent : Bool) (w : World)
    (st : SessionState) (r : CallToolRequest) : CreateOutcome :=
  match openRepository singleTenant w st r with
  | Except.error e => ⟨Except.error e, st, false⟩
  | Except.ok source =>
  match r.requireString "title" with
  | Except.error e => ⟨Except.error e, st, false⟩
  | Except.ok title =>
  match createReplaceGuard singleTenant st r with
  | some msg => ⟨Except.error msg, st, false⟩
  | none =>
  if daggerPresent = false then
    ⟨Except.error "dagger client not found in context", st, false⟩
  else
  match w.create source title (r.getString "explanation" "") (r.getString "from_git_ref" "HEAD") with
  | Except.error e => ⟨Except.error ("failed to create environment: " ++ e), st, true⟩
  | Except.ok env =>
  let st2 := singleTenantSessionUpdate singleTenant st r env
  let out := marshalEnvironment env
  match w.isDirty source with
  | Except.error e => ⟨Except.error ("unable to check if environment is dirty: " ++ e), st2, true⟩
  | Except.ok (dirty, status) =>
    if dirty = false then ⟨Except.ok (NewToolResultText out), st2, true⟩
    else ⟨Except.ok (NewToolResultText
      (dirtyWarningText out (r.getString "environment_source" "") status)), st2, true⟩

/-- Outcome of the environment_run_cmd handler, tracking whether the repository
    Update reconciliation was invoked. -/
structure RunOutcome where
  result : Except String CallToolResult
  updateCalled : Bool

/-- The background-run result text of createEnvironmentRunCmdTool. -/
def backgroundRunText (endpoints workdir envID : String) : String :=
  "Command started in the background in NEW container. Endpoints are " ++ endpoints
    ++ "\n\nTo access from the user\x27s machine: use host_external. To access from other commands in this environment: use environment_internal.\n\nAny changes to the container workdir ("
    ++ workdir ++ ") WILL NOT be committed to container-use/" ++ envID
    ++ "\n\nBackground commands are unaffected by filesystem and any other kind of changes. You need to start a new command for changes to take effect."

/-- The foreground-run result text of createEnvironmentRunCmdTool. -/
def foregroundRunText (stdout workdir envID : String) : String :=
  stdout ++ "\n\nAny changes to the container workdir (" ++ workdir
    ++ ") have been committed and pushed to container-use/" ++ envID ++ " remote ref"

/-- Mirrors the handler of createEnvironmentRunCmdTool: run the command (foreground
    or background), then update the repository even if the command itself failed
    (the Update error takes precedence over the run error, as in the Go code). -/
def environmentRunCmdHandler (singleTenant daggerPresent : Bool) (w : World)
    (st : SessionState) (r : CallToolRequest) : RunOutcome :=
  match openEnvironment singleTenant daggerPresent w st r with
  | Except.error e => ⟨Except.error e, false⟩
  | Except.ok (source, env) =>
    let command := r.getString "command" ""
    let shell := r.getString "shell" "sh"
    let explanation := r.getString "explanation" ""
    if r.getBool "background" false then
      let ports := r.getIntList "ports"
      let runRes := w.runBackground env command shell ports (r.getBool "use_entrypoint" false)
      match w.update source env explanation with
      | Except.error e => ⟨Except.error ("failed to update repository: " ++ e), true⟩
      | Except.ok _ =>
        match runRes with
        | Except.error e => ⟨Except.error ("failed to run command: " ++ e), true⟩
        | Except.ok endpoints =>
          ⟨Except.ok (NewToolResultText
            (backgroundRunText endpoints env.info.State.Config.Workdir env.info.ID)), true⟩
    else
      let runRes := w.run env command shell (r.getBool "use_entrypoint" false)
      match w.update source env explanation with
      | Except.error e => ⟨Except.error ("failed to update repository: " ++ e), true⟩
      | Except.ok _ =>
        match runRes with
        | Except.error e => ⟨Except.error ("failed to run command: " ++ e), true⟩
        | Except.ok stdout =>
          ⟨Except.ok (NewToolResultText
            (foregroundRunText stdout env.info.State.Config.Workdir env.info.ID)), true⟩

/-- Outcome of a file-mutating handler, tracking whether the repository
    Update / UpdateFile reconciliation was invoked. -/
structure FileOutcome where
  result : Except String CallToolResult
  updateCalled : Bool

/-- Mirrors the handler of createEnvironmentFileWriteTool: a failing FileWrite
    returns immediately, and only a successful write is followed by UpdateFile. -/
def environmentFileWriteHandler (singleTenant daggerPresent : Bool) (w : World)
    (st : SessionState) (r : CallToolRequest) : FileOutcome :=
  match openEnvironment singleTenant daggerPresent w st r with
  | Except.error e => ⟨Except.error e, false⟩
  | Except.ok (source, env) =>
  match r.requireString "target_file" with
  | Except.error e => ⟨Except.error e, false⟩
  | Except.ok targetFile =>
  match r.requireString "contents" with
  | Except.error e => ⟨Except.error e, false⟩
  | Except.ok contents =>
  match w.fileWrite env (r.getString "explanation" "") targetFile contents with
  | Except.error e => ⟨Except.error ("failed to write file: " ++ e), false⟩
  | Except.ok _ =>
  match w.updateFile source env targetFile (r.getString "explanation" "") with
  | Except.error e => ⟨Except.error ("unable to update the environment: " ++ e), true⟩
  | Except.ok _ =>
    ⟨Except.ok (NewToolResultText ("file " ++ targetFile
      ++ " written successfully and committed to container-use/" ++ env.info.ID
      ++ " remote ref")), true⟩

/-- Mirrors the handler of createEnvironmentFileEditTool: open and edit failures
    are returned as error tool results (not Go errors); a failing FileEdit returns
    immediately, and only a successful edit is followed by UpdateFile. -/
def environmentFileEditHandler (singleTenant daggerPresent : Bool) (w : World)
    (st : SessionState) (r : CallToolRequest) : FileOutcome :=
  match openEnvironment singleTenant daggerPresent w st r with
  | Except.error e =>
    ⟨Except.ok (NewToolResultErrorFromErr "unable to open the environment" e), false⟩
  | Except.ok (source, env) =>
  match r.requireString "target_file" with
  | Except.error e => ⟨Except.error e, false⟩
  | Except.ok targetFile =>
  match r.requireString "search_text" with
  | Except.error e => ⟨Except.error e, false⟩
  | Except.ok search =>
  match r.requireString "replace_text" with
  | Except.error e => ⟨Except.error e, false⟩
  | Except.ok rep =>
  match w.fileEdit env (r.getString "explanation" "") targetFile search rep
      (r.getString "which_match" "") with
  | Except.error e => ⟨Except.ok (NewToolResultErrorFromErr "failed to write file" e), false⟩
  | Except.ok _ =>
  match w.updateFile source env targetFile (r.getString "explanation" "") with
  | Except.error e =>
    ⟨Except.ok (NewToolResultErrorFromErr "unable to update the environment" e), true⟩
  | Except.ok _ =>
    ⟨Except.ok (NewToolResultText ("file " ++ targetFile
      ++ " edited successfully and committed to container-use/" ++ env.info.ID
      ++ " remote ref")), true⟩

/-- Mirrors the handler of createEnvironmentFileDeleteTool: a failing FileDelete
    returns immediately, and only a successful delete is followed by Update. -/
def environmentFileDeleteHandler (singleTenant daggerPresent : Bool) (w : World)
    (st : SessionState) (r : CallToolRequest) : FileOutcome :=
  match openEnvironment singleTenant daggerPresent w st r with
  | Except.error e => ⟨Except.error e, false⟩
  | Except.ok (source, env) =>
  match r.requireString "target_file" with
  | Except.error e => ⟨Except.error e, false⟩
  | Except.ok targetFile =>
  match w.fileDelete env (r.getString "explanation" "") targetFile with
  | Except.error e => ⟨Except.error ("failed to delete file: " ++ e), false⟩
  | Except.ok _ =>
  match w.update source env (r.getString "explanation" "") with
  | Except.error e => ⟨Except.error ("failed to update env: " ++ e), true⟩
  | Except.ok _ =>
    ⟨Except.ok (NewToolResultText ("file " ++ targetFile
      ++ " deleted successfully and committed to container-use/" ++ env.info.ID
      ++ " remote ref")), true⟩

/-- The context values a handler receives (the dagger client and the single-tenant
    flag carried in the Go request context). -/
structure ToolContext where
  daggerPresent : Bool
  singleTenant : Bool
deriving DecidableEq

/-- Mirrors wrapTool: the wrapped handler converts an inner Go error into an error
    tool result and itself returns a nil Go error. A Go (result, error) pair is
    modelled as Option CallToolResult × Option String. -/
def wrapToolHandler
    (h : ToolContext → CallToolRequest → Option CallToolResult × Option String)
    (ctx : ToolContext) (r : CallToolRequest) : Option CallToolResult × Option String :=
  match h ctx r with
  | (_, some e) => (some (NewToolResultError e), none)
  | (response, none) => (response, none)

/-- Wraparound of 64-bit signed two-complement integer arithmetic, the defined
    overflow behavior of the Go int type on 64-bit platforms. -/
def wrapInt64 (x : Int) : Int := (x + 2 ^ 63) % 2 ^ 64 - 2 ^ 63

/-- Mirrors calculateMaxTitleLength of main.go, with Go int subtraction. -/
def calculateMaxTitleLength (terminalWidth : Int) : Int :=
  let avgEnvIDLength : Int := 12
  let tabSeparator : Int := 1
  let descSuffix : Int := 11
  let avgTimeLength : Int := 10
  let closeParen : Int := 1
  let padding : Int := 5
  let usedSpace := avgEnvIDLength + tabSeparator + descSuffix + avgTimeLength
    + closeParen + padding
  let maxTitleLength := wrapInt64 (terminalWidth - usedSpace)
  if maxTitleLength < 10 then 10
  else if maxTitleLength > 100 then 100
  else maxTitleLength

/-- Oracle for the collaborators of the prune command: opening the repository at
    ".", listing the environments, and deleting a given environment. -/
structure PruneWorld where
  openRepo : Except String Unit
  list : Except String (List EnvironmentInfo)
  deleteEnv : String → Except String Unit

/-- Outcome of the prune command: the returned error (if any), the printed lines,
    and the environment IDs on which repo.Delete was invoked. -/
structure PruneOutcome where
  err : Option String
  output : List String
  deleteCalls : List String

/-- Mirrors the RunE of pruneCmd in main.go. Time is passed in as the current
    instant and the age threshold (both as integer nanoseconds); the --before flag
    parsing itself is an external library. Duration formatting is abstracted as
    toString of the integer. -/
def pruneRun (w : PruneWorld) (dryRun : Bool) (now duration : Int) : PruneOutcome :=
  match w.openRepo with
  | Except.error e => ⟨some ("failed to open repository: " ++ e), [], []⟩
  | Except.ok _ =>
  match w.list with
  | Except.error e => ⟨some ("failed to list environments: " ++ e), [], []⟩
  | Except.ok envs =>
  if envs.length = 0 then ⟨none, ["No environments found."], []⟩
  else
    let cutoff := now - duration
    let envsToPrune := (envs.filter (fun env => env.State.UpdatedAt < cutoff)).map
      (fun env => env.ID)
    if envsToPrune.length = 0 then
      ⟨none, ["No environments older than " ++ toString duration ++ " found."], []⟩
    else if dryRun then
      ⟨none, ("Would prune " ++ toString envsToPrune.length ++ " environment(s) older than "
          ++ toString duration ++ ":")
        :: envsToPrune.map (fun envID => "  - " ++ envID), []⟩
    else
      let results := envsToPrune.map (fun envID => (envID, w.deleteEnv envID))
      let lines := results.map (fun p =>
        match p.2 with
        | Except.error e => "Failed to delete environment \x27" ++ p.1 ++ "\x27: " ++ e
        | Except.ok _ => "Environment \x27" ++ p.1 ++ "\x27 deleted successfully.")
      let deletedCount := (results.filter (fun p => isSuccess p.2)).length
      ⟨none,
        ("Pruning " ++ toString envsToPrune.length ++ " environment(s) older than "
            ++ toString duration ++ "...")
          :: lines
          ++ ["Successfully deleted " ++ toString deletedCount ++ " environment(s)."],
        envsToPrune⟩

/- Concrete fixtures used by witnesses and counterexamples. -/

/-- A sample environment configuration. -/
def sampleConfig : EnvironmentConfig :=
  ⟨"ubuntu:24.04", ["apt-get update"], ["FOO=bar"], "/workdir"⟩

/-- A sample live environment. -/
def sampleEnv : Environment := ⟨⟨"env0", ⟨"Test", sampleConfig, 100⟩⟩, []⟩

/-- A request with no arguments. -/
def emptyRequest : CallToolRequest := ⟨[], [], []⟩

/-- A session state holding a current environment. -/
def sessionWithEnv : SessionState := ⟨"env0", "src0"⟩

/-- An oracle on which every collaborator call succeeds: any repository opens, Get
    returns the environment with the requested ID, Create returns a fresh
    environment named new-env carrying the request title, and the source tree is
    clean. -/
def sampleWorldOk : World where
  repoOpen := fun _ => Except.ok ()
  getEnv := fun _ envID => Except.ok ⟨⟨envID, ⟨"Test", sampleConfig, 100⟩⟩, []⟩
  create := fun _ title _ _ => Except.ok ⟨⟨"new-env", ⟨title, sampleConfig, 200⟩⟩, []⟩
  isDirty := fun _ => Except.ok (false, "")
  update := fun _ _ _ => Except.ok ()
  updateFile := fun _ _ _ _ => Except.ok ()
  run := fun _ _ _ _ => Except.ok "stdout"
  runBackground := fun _ _ _ _ _ => Except.ok "[]"
  fileWrite := fun _ _ _ _ => Except.ok ()
  fileEdit := fun _ _ _ _ _ _ => Except.ok ()
  fileDelete := fun _ _ _ => Except.ok ()

/-- C7: for every EnvironmentInfo with id I, title T and config C, the response
    built by environmentResponseFromEnvInfo has id I, title T, config C, remote_ref
    "container-use/I", and the checkout, log and diff command strings
    "container-use checkout I", "container-use log I", "container-use diff I". -/
theorem c7_environment_response (envInfo : EnvironmentInfo) :
    (environmentResponseFromEnvInfo envInfo).ID = envInfo.ID
    ∧ (environmentResponseFromEnvInfo envInfo).Title = envInfo.State.Title
    ∧ (environmentResponseFromEnvInfo envInfo).Config = envInfo.State.Config
    ∧ (environmentResponseFromEnvInfo envInfo).RemoteRef = "container-use/" ++ envInfo.ID
    ∧ (environmentResponseFromEnvInfo envInfo).CheckoutCommand
        = "container-use checkout " ++ envInfo.ID
    ∧ (environmentResponseFromEnvInfo envInfo).LogCommand
        = "container-use log " ++ envInfo.ID
    ∧ (environmentResponseFromEnvInfo envInfo).DiffCommand
        = "container-use diff " ++ envInfo.ID :=
  ⟨rfl, rfl, rfl, rfl, rfl, rfl, rfl⟩

/-- C8: the wrapped handler produced by wrapTool never returns a non-nil Go error;
    when the inner handler returns an error it returns a structured error tool
    result carrying that message, and otherwise it returns the inner result
    unchanged. -/
theorem c8_wrap_tool
    (h : ToolContext → CallToolRequest → Option CallToolResult × Option String)
    (ctx : ToolContext) (r : CallToolRequest) :
    (wrapToolHandler h ctx r).2 = none
    ∧ (∀ e, (h ctx r).2 = some e →
        (wrapToolHandler h ctx r).1 = some (NewToolResultError e))
    ∧ ((h ctx r).2 = none → (wrapToolHandler h ctx r).1 = (h ctx r).1) := by
  rcases hh : h ctx r with ⟨response, err⟩
  cases err <;> simp [wrapToolHandler, hh]

/-- A sample inner handler that fails with a Go error. -/
def sampleFailingInner :
    ToolContext → CallToolRequest → Option CallToolResult × Option String :=
  fun _ _ => (none, some "boom")

/-- Witness for C8 at a concrete failing inner handler. -/
theorem c8_wrap_tool_witness :
    (wrapToolHandler sampleFailingInner ⟨true, true⟩ emptyRequest).2 = none
    ∧ (wrapToolHandler sampleFailingInner ⟨true, true⟩ emptyRequest).1
        = some (NewToolResultError "boom") :=
  ⟨(c8_wrap_tool sampleFailingInner ⟨true, true⟩ emptyRequest).1,
   (c8_wrap_tool sampleFailingInner ⟨true, true⟩ emptyRequest).2.1 "boom" rfl⟩

theorem wrapInt64_bounds (x : Int) : -(2 ^ 63) ≤ wrapInt64 x ∧ wrapInt64 x < 2 ^ 63 := by
  have h0 : (0 : Int) ≤ (x + 2 ^ 63) % 2 ^ 64 := Int.emod_nonneg _ (by norm_num)
  have h1 : (x + 2 ^ 63) % 2 ^ 64 < 2 ^ 64 := Int.emod_lt_of_pos _ (by norm_num)
  unfold wrapInt64
  omega

theorem wrapInt64_eq_self (x : Int) (hlo : -(2 ^ 63) ≤ x) (hhi : x < 2 ^ 63) :
    wrapInt64 x = x := by
  unfold wrapInt64
  have h0 : (0 : Int) ≤ x + 2 ^ 63 := by omega
  have h1 : x + 2 ^ 63 < 2 ^ 64 := by omega
  rw [Int.emod_eq_of_lt h0 h1]
  omega

/-- C9 counterexample: at terminalWidth = -2^63 (a valid Go int), the Go
    subtraction terminalWidth - 40 wraps around, so calculateMaxTitleLength
    returns 100 while the mathematical clamp of terminalWidth - 40 to [10, 100]
    is 10: the claimed formula fails at this input. -/
theorem c9_counterexample :
    calculateMaxTitleLength (-(2 ^ 63)) = 100
    ∧ max 10 (min 100 (-(2 ^ 63) - 40)) = 10
    ∧ ¬ calculateMaxTitleLength (-(2 ^ 63)) = max 10 (min 100 (-(2 ^ 63) - 40)) := by
  refine ⟨?_, by norm_num, ?_⟩ <;> decide

/-- C9 (amended): calculateMaxTitleLength always returns a value that is at least
    10 and at most 100; and whenever the subtraction terminalWidth - 40 does not
    underflow the 64-bit int range (in particular for every realistic width), it
    equals terminalWidth - 40 clamped below at 10 and above at 100. -/
theorem c9_amended (terminalWidth : Int) :
    (10 ≤ calculateMaxTitleLength terminalWidth
      ∧ calculateMaxTitleLength terminalWidth ≤ 100)
    ∧ (-(2 ^ 63) + 40 ≤ terminalWidth → terminalWidth < 2 ^ 63 →
        calculateMaxTitleLength terminalWidth
          = max 10 (min 100 (terminalWidth - 40))) := by
  constructor
  · have hb := wrapInt64_bounds (terminalWidth - (12 + 1 + 11 + 10 + 1 + 5))
    simp only [calculateMaxTitleLength]
    split
    · omega
    · split <;> omega
  · intro hlo hhi
    have hw : wrapInt64 (terminalWidth - (12 + 1 + 11 + 10 + 1 + 5))
        = terminalWidth - (12 + 1 + 11 + 10 + 1 + 5) :=
      wrapInt64_eq_self _ (by omega) (by omega)
    simp only [calculateMaxTitleLength]
    rw [hw]
    split
    · omega
    · split <;> omega

/-- Witness for C9 (amended) at a realistic width of 120 columns. -/
theorem c9_amended_witness :
    calculateMaxTitleLength 120 = max 10 (min 100 (120 - 40)) :=
  (c9_amended 120).2 (by norm_num) (by norm_num)

/-- C10: with --dry-run set, the prune command never invokes repo.Delete, and
    (when the repository opens and the listing succeeds, with at least one
    environment old enough) its output lists exactly the environment IDs whose
    UpdatedAt is before the cutoff now - duration, modifying nothing. -/
theorem c10_prune_dry_run (w : PruneWorld) (now duration : Int) :
    (pruneRun w true now duration).deleteCalls = []
    ∧ (∀ envs, w.openRepo = Except.ok () → w.list = Except.ok envs →
        ((envs.filter (fun env => env.State.UpdatedAt < now - duration)).map
            (fun env => env.ID)) ≠ [] →
        (pruneRun w true now duration).err = none
        ∧ (pruneRun w true now duration).output
          = ("Would prune "
              ++ toString ((envs.filter (fun env => env.State.UpdatedAt < now - duration)).map
                  (fun env => env.ID)).length
              ++ " environment(s) older than " ++ toString duration ++ ":")
            :: ((envs.filter (fun env => env.State.UpdatedAt < now - duration)).map
                (fun env => env.ID)).map (fun envID => "  - " ++ envID)) := by
  constructor
  · cases ho : w.openRepo with
    | error e => simp [pruneRun, ho]
    | ok u =>
      cases hl : w.list with
      | error e => simp [pruneRun, ho, hl]
      | ok envs =>
        simp only [pruneRun, ho, hl]
        split
        · rfl
        · split
          · rfl
          · rfl
  · intro envs ho hl hne
    simp only [pruneRun, ho, hl]
    split
    · rename_i hlen
      rw [List.length_eq_zero] at hlen
      subst hlen
      simp at hne
    · split
      · rename_i hlen
        rw [List.length_eq_zero] at hlen
        exact absurd hlen hne
      · exact ⟨rfl, rfl⟩

/-- An environment last updated at instant 5. -/
def oldEnvInfo : EnvironmentInfo := ⟨"stale-env", ⟨"Old", sampleConfig, 5⟩⟩

/-- An environment last updated at instant 50. -/
def newEnvInfo : EnvironmentInfo := ⟨"fresh-env", ⟨"New", sampleConfig, 50⟩⟩

/-- A prune oracle with one stale and one fresh environment. -/
def samplePruneWorld : PruneWorld :=
  ⟨Except.ok (), Except.ok [oldEnvInfo, newEnvInfo], fun _ => Except.ok ()⟩

/-- Witness for C10: at now = 100, duration = 60 only the stale environment is
    listed and nothing is deleted. -/
theorem c10_prune_dry_run_witness :
    (pruneRun samplePruneWorld true 100 60).deleteCalls = []
    ∧ (pruneRun samplePruneWorld true 100 60).err = none
    ∧ (pruneRun samplePruneWorld true 100 60).output
      = ["Would prune 1 environment(s) older than 60:", "  - stale-env"] := by
  have h := c10_prune_dry_run samplePruneWorld 100 60
  have h2 := h.2 [oldEnvInfo, newEnvInfo] rfl rfl (by decide)
  exact ⟨h.1, h2.1, h2.2.trans (by decide)⟩

/-- Helper: discarding the RequireString error (the source pattern
    `source, _ := request.RequireString(key)`) yields the argument when present and
    the empty string when absent. -/
theorem requireString_discard_eq_getD (r : CallToolRequest) (key : String) :
    (match r.requireString key with
      | Except.ok s => s
      | Except.error _ => "") = (r.strArgs.lookup key).getD "" := by
  cases h : r.strArgs.lookup key <;> simp [CallToolRequest.requireString, h]

/-- C4: for environment-scoped tool calls resolved through openEnvironment, in
    multi-tenant mode a missing environment_source or environment_id argument makes
    the call fail; in single-tenant mode (with the external collaborators
    succeeding) a missing or empty argument is filled from the session state, the
    call failing exactly on the side whose session value is also empty. -/
theorem c4_env_scoped_arguments (dP : Bool) (w : World) (st : SessionState)
    (r : CallToolRequest) :
    ((r.strArgs.lookup "environment_source" = none →
        isSuccess (openEnvironment false dP w st r) = false)
     ∧ (r.strArgs.lookup "environment_id" = none →
        isSuccess (openEnvironment false dP w st r) = false))
    ∧ ((∀ s, w.repoOpen s = Except.ok ()) → dP = true →
        (((if r.getString "environment_source" "" = ""
            then st.currentEnvironmentSource
            else r.getString "environment_source" "") = ""
          ∨ (if r.getString "environment_id" "" = ""
            then st.currentEnvironmentID
            else r.getString "environment_id" "") = "") →
          isSuccess (openEnvironment true dP w st r) = false)
        ∧ ((if r.getString "environment_source" "" = ""
            then st.currentEnvironmentSource
            else r.getString "environment_source" "") ≠ "" →
          (if r.getString "environment_id" "" = ""
            then st.currentEnvironmentID
            else r.getString "environment_id" "") ≠ "" →
          ∀ env,
            w.getEnv
              (if r.getString "environment_source" "" = ""
                then st.currentEnvironmentSource
                else r.getString "environment_source" "")
              (if r.getString "environment_id" "" = ""
                then st.currentEnvironmentID
                else r.getString "environment_id" "") = Except.ok env →
            openEnvironment true dP w st r
              = Except.ok
                ((if r.getString "environment_source" "" = ""
                  then st.currentEnvironmentSource
                  else r.getString "environment_source" ""), env))) := by
  refine ⟨⟨?_, ?_⟩, ?_⟩
  · intro h
    simp [openEnvironment, openRepository, CallToolRequest.requireString, h, isSuccess]
  · intro h
    cases hs : r.strArgs.lookup "environment_source" with
    | none =>
      simp [openEnvironment, openRepository, CallToolRequest.requireString, hs, isSuccess]
    | some v =>
      cases hro : w.repoOpen v with
      | error e =>
        simp [openEnvironment, openRepository, CallToolRequest.requireString, hs, hro,
          isSuccess]
      | ok u =>
        simp [openEnvironment, openRepository, CallToolRequest.requireString, hs, hro, h,
          isSuccess]
  · intro hro hdP
    subst hdP
    constructor
    · intro hempty
      rcases hempty with hsrc | hid
      · by_cases h1 : r.getString "environment_source" "" = ""
        · rw [if_pos h1] at hsrc
          simp [openEnvironment, openRepository, getCurrentEnvironmentSource, h1, hsrc,
            isSuccess]
        · rw [if_neg h1] at hsrc
          exact absurd hsrc h1
      · by_cases h1 : r.getString "environment_source" "" = ""
        · by_cases h2 : st.currentEnvironmentSource = ""
          · simp [openEnvironment, openRepository, getCurrentEnvironmentSource, h1, h2,
              isSuccess]
          · by_cases h3 : r.getString "environment_id" "" = ""
            · rw [if_pos h3] at hid
              simp [openEnvironment, openRepository, getCurrentEnvironmentSource,
                getCurrentEnvironmentID, h1, h2, h3, hid, hro, isSuccess]
            · rw [if_neg h3] at hid
              exact absurd hid h3
        · by_cases h3 : r.getString "environment_id" "" = ""
          · rw [if_pos h3] at hid
            simp [openEnvironment, openRepository, getCurrentEnvironmentSource,
              getCurrentEnvironmentID, h1, h3, hid, hro, isSuccess]
          · rw [if_neg h3] at hid
            exact absurd hid h3
    · intro hsrc hid env hget
      by_cases h1 : r.getString "environment_source" "" = ""
      · rw [if_pos h1] at hsrc hget ⊢
        by_cases h3 : r.getString "environment_id" "" = ""
        · rw [if_pos h3] at hid hget
          simp [openEnvironment, openRepository, getCurrentEnvironmentSource,
            getCurrentEnvironmentID, h1, h3, hsrc, hid, hro, hget]
        · rw [if_neg h3] at hid hget
          simp [openEnvironment, openRepository, getCurrentEnvironmentSource,
            getCurrentEnvironmentID, h1, h3, hsrc, hid, hro, hget]
      · rw [if_neg h1] at hsrc hget ⊢
        by_cases h3 : r.getString "environment_id" "" = ""
        · rw [if_pos h3] at hid hget
          simp [openEnvironment, openRepository, getCurrentEnvironmentSource,
            getCurrentEnvironmentID, h1, h3, hsrc, hid, hro, hget]
        · rw [if_neg h3] at hid hget
          simp [openEnvironment, openRepository, getCurrentEnvironmentSource,
            getCurrentEnvironmentID, h1, h3, hsrc, hid, hro, hget]

/-- Witness for C4: a multi-tenant call with no arguments fails; a single-tenant
    call with no arguments resolves to the session values and succeeds. -/
theorem c4_env_scoped_arguments_witness :
    isSuccess (openEnvironment false true sampleWorldOk sessionWithEnv emptyRequest) = false
    ∧ openEnvironment true true sampleWorldOk sessionWithEnv emptyRequest
      = Except.ok ("src0", sampleEnv) := by
  have h := c4_env_scoped_arguments true sampleWorldOk sessionWithEnv emptyRequest
  refine ⟨(h.1).1 rfl, ?_⟩
  have h2 := (h.2 (fun _ => rfl) rfl).2 (by decide) (by decide) sampleEnv rfl
  exact h2.trans rfl


/-- Helper: a multi-tenant openEnvironment call fails when environment_source is
    absent. -/
theorem openEnvironment_multi_missing_source (dP : Bool) (w : World) (st : SessionState)
    (r : CallToolRequest) (h : r.strArgs.lookup "environment_source" = none) :
    isSuccess (openEnvironment false dP w st r) = false := by
  simp [openEnvironment, openRepository, CallToolRequest.requireString, h, isSuccess]

/-- Helper: a multi-tenant openEnvironment call fails when environment_id is
    absent. -/
theorem openEnvironment_multi_missing_id (dP : Bool) (w : World) (st : SessionState)
    (r : CallToolRequest) (h : r.strArgs.lookup "environment_id" = none) :
    isSuccess (openEnvironment false dP w st r) = false := by
  cases hs : r.strArgs.lookup "environment_source" with
  | none =>
    simp [openEnvironment, openRepository, CallToolRequest.requireString, hs, isSuccess]
  | some v =>
    cases hro : w.repoOpen v with
    | error e =>
      simp [openEnvironment, openRepository, CallToolRequest.requireString, hs, hro,
        isSuccess]
    | ok u =>
      simp [openEnvironment, openRepository, CallToolRequest.requireString, hs, hro, h,
        isSuccess]

/-- Helper: a single-tenant openEnvironment call fails when neither the
    environment_id argument nor the session state provides an ID. -/
theorem openEnvironment_single_no_id (dP : Bool) (w : World) (st : SessionState)
    (r : CallToolRequest) (h1 : r.getString "environment_id" "" = "")
    (h2 : st.currentEnvironmentID = "") :
    isSuccess (openEnvironment true dP w st r) = false := by
  cases ho : openRepository true w st r with
  | error e => simp [openEnvironment, ho, isSuccess]
  | ok source =>
    simp [openEnvironment, ho, h1, h2, getCurrentEnvironmentID, isSuccess]

/-- Helper: a failing openEnvironment makes the environment_open handler fail. -/
theorem environmentOpenHandler_error (sT dP : Bool) (w : World) (st : SessionState)
    (r : CallToolRequest) (h : isSuccess (openEnvironment sT dP w st r) = false) :
    isSuccess (environmentOpenHandler sT dP w st r).result = false := by
  cases ho : openEnvironment sT dP w st r with
  | error e => simp [environmentOpenHandler, ho, isSuccess]
  | ok p => rw [ho] at h; simp [isSuccess] at h

/-- C3 counterexample: in single-tenant mode with a current environment recorded,
    an environment_open call with neither environment_id nor environment_source
    succeeds (falling back to the session values) instead of failing; the session
    source is even overwritten with the empty string. -/
theorem c3_counterexample :
    emptyRequest.strArgs.lookup "environment_id" = none
    ∧ emptyRequest.strArgs.lookup "environment_source" = none
    ∧ (environmentOpenHandler true true sampleWorldOk sessionWithEnv emptyRequest).result
      = Except.ok (NewToolResultText (marshalEnvironment sampleEnv))
    ∧ (environmentOpenHandler true true sampleWorldOk sessionWithEnv emptyRequest).state
      = (⟨"env0", ""⟩ : SessionState) :=
  ⟨rfl, rfl, rfl, rfl⟩

/-- C3 (amended): environment_open requires environment_id and environment_source
    in multi-tenant mode only; in single-tenant mode a missing argument falls back
    to the session state (the call failing when the environment_id argument and the
    stored ID are both empty), and on single-tenant success the session state is set
    to the opened environment ID and the environment_source argument (empty when
    absent). -/
theorem c3_amended (dP : Bool) (w : World) (st : SessionState) (r : CallToolRequest) :
    ((r.strArgs.lookup "environment_source" = none →
        isSuccess (environmentOpenHandler false dP w st r).result = false)
     ∧ (r.strArgs.lookup "environment_id" = none →
        isSuccess (environmentOpenHandler false dP w st r).result = false))
    ∧ (r.getString "environment_id" "" = "" → st.currentEnvironmentID = "" →
        isSuccess (environmentOpenHandler true dP w st r).result = false)
    ∧ (∀ source env, openEnvironment true dP w st r = Except.ok (source, env) →
        (environmentOpenHandler true dP w st r).result
          = Except.ok (NewToolResultText (marshalEnvironment env))
        ∧ (environmentOpenHandler true dP w st r).state
          = setCurrentEnvironment st env.info.ID
              ((r.strArgs.lookup "environment_source").getD "")) := by
  refine ⟨⟨?_, ?_⟩, ?_, ?_⟩
  · intro h
    exact environmentOpenHandler_error false dP w st r
      (openEnvironment_multi_missing_source dP w st r h)
  · intro h
    exact environmentOpenHandler_error false dP w st r
      (openEnvironment_multi_missing_id dP w st r h)
  · intro h1 h2
    exact environmentOpenHandler_error true dP w st r
      (openEnvironment_single_no_id dP w st r h1 h2)
  · intro source env ho
    constructor
    · simp [environmentOpenHandler, ho]
    · simp [environmentOpenHandler, ho, singleTenantSessionUpdate,
        requireString_discard_eq_getD]

/-- A request carrying both environment arguments. -/
def requestOpenBoth : CallToolRequest :=
  ⟨[("environment_source", "src0"), ("environment_id", "env0")], [], []⟩

/-- Witness for C3 (amended): a multi-tenant call without arguments fails; a
    single-tenant call with both arguments succeeds and records (env0, src0). -/
theorem c3_amended_witness :
    isSuccess (environmentOpenHandler false true sampleWorldOk sessionWithEnv
      emptyRequest).result = false
    ∧ (environmentOpenHandler true true sampleWorldOk sessionWithEnv
        requestOpenBoth).result
      = Except.ok (NewToolResultText (marshalEnvironment sampleEnv))
    ∧ (environmentOpenHandler true true sampleWorldOk sessionWithEnv
        requestOpenBoth).state = setCurrentEnvironment sessionWithEnv "env0" "src0" := by
  have h1 := (c3_amended true sampleWorldOk sessionWithEnv emptyRequest).1.1 rfl
  have h2 := (c3_amended true sampleWorldOk sessionWithEnv requestOpenBoth).2.2
    "src0" sampleEnv rfl
  exact ⟨h1, h2.1, h2.2⟩

/-- A single-tenant create request whose required title argument is absent. -/
def requestNoTitle : CallToolRequest := ⟨[("environment_source", "src0")], [], []⟩

/-- C1 counterexample: in single-tenant mode with a current environment set and
    allow_replace absent, a create call with a missing title fails with the
    RequireString error — which does not contain the existing environment ID —
    rather than with the replace-guard error; no environment is created, as the
    handler fails before reaching the guard. -/
theorem c1_counterexample :
    sessionWithEnv.currentEnvironmentID = "env0"
    ∧ requestNoTitle.getBool "allow_replace" false = false
    ∧ (environmentCreateHandler true true sampleWorldOk sessionWithEnv
        requestNoTitle).result = Except.error "required argument \"title\" not found"
    ∧ ¬ ("env0".toList <:+: ("required argument \"title\" not found").toList)
    ∧ (environmentCreateHandler true true sampleWorldOk sessionWithEnv
        requestNoTitle).createCalled = false :=
  ⟨rfl, rfl, rfl, by decide, rfl⟩

/-- Helper: the existing environment ID is an infix of the replace-guard message. -/
theorem createGuardMessage_contains_id (envID : String) :
    envID.toList <:+: (createGuardMessage envID).toList := by
  refine ⟨"environment_id ".toList,
    (" already exists for this session. Tools can be used directly. You can environment_open "
      ++ envID
      ++ " for more information, or set allow_replace=true to destructively replace it").toList,
    ?_⟩
  simp [createGuardMessage, String.toList, String.data_append, List.append_assoc]

/-- C1 (amended): in single-tenant mode, provided the repository opens and the
    required title argument is present, a create call with a current environment
    set and allow_replace absent or false fails with the replace-guard error, which
    contains the existing environment ID, and repo.Create is not invoked; if
    allow_replace is true or no current environment is set (and the dagger client
    is present), creation proceeds, and on repo.Create success the session state is
    set to the new environment ID and the environment_source argument (empty when
    absent). -/
theorem c1_amended (daggerPresent : Bool) (w : World) (st : SessionState)
    (r : CallToolRequest) :
    (st.currentEnvironmentID ≠ "" →
      r.getBool "allow_replace" false = false →
      ∀ source, openRepository true w st r = Except.ok source →
      ∀ title, r.requireString "title" = Except.ok title →
        (environmentCreateHandler true daggerPresent w st r).result
          = Except.error (createGuardMessage st.currentEnvironmentID)
        ∧ (environmentCreateHandler true daggerPresent w st r).createCalled = false
        ∧ (environmentCreateHandler true daggerPresent w st r).state = st
        ∧ st.currentEnvironmentID.toList
            <:+: (createGuardMessage st.currentEnvironmentID).toList)
    ∧ ((r.getBool "allow_replace" false = true ∨ st.currentEnvironmentID = "") →
      daggerPresent = true →
      ∀ source, openRepository true w st r = Except.ok source →
      ∀ title, r.requireString "title" = Except.ok title →
        (environmentCreateHandler true daggerPresent w st r).createCalled = true
        ∧ (∀ env, w.create source title (r.getString "explanation" "")
              (r.getString "from_git_ref" "HEAD") = Except.ok env →
            (environmentCreateHandler true daggerPresent w st r).state
              = setCurrentEnvironment st env.info.ID
                  ((r.strArgs.lookup "environment_source").getD ""))) := by
  constructor
  · intro hid hallow source hopen title htitle
    have hguard : createReplaceGuard true st r
        = some (createGuardMessage st.currentEnvironmentID) := by
      simp [createReplaceGuard, hallow, getCurrentEnvironmentID, hid]
    refine ⟨?_, ?_, ?_, createGuardMessage_contains_id st.currentEnvironmentID⟩ <;>
      simp [environmentCreateHandler, hopen, htitle, hguard]
  · intro hor hdP source hopen title htitle
    subst hdP
    have hguard : createReplaceGuard true st r = none := by
      rcases hor with hallow | hid
      · simp [createReplaceGuard, hallow]
      · by_cases hab : r.getBool "allow_replace" false = false
        · simp [createReplaceGuard, hab, getCurrentEnvironmentID, hid]
        · simp [createReplaceGuard, hab]
    constructor
    · cases hc : w.create source title (r.getString "explanation" "")
          (r.getString "from_git_ref" "HEAD") with
      | error e => simp [environmentCreateHandler, hopen, htitle, hguard, hc]
      | ok env =>
        cases hd : w.isDirty source with
        | error e => simp [environmentCreateHandler, hopen, htitle, hguard, hc, hd]
        | ok p =>
          rcases p with ⟨dirty, status⟩
          cases dirty <;>
            simp [environmentCreateHandler, hopen, htitle, hguard, hc, hd]
    · intro env hc
      have hupd : singleTenantSessionUpdate true st r env
          = setCurrentEnvironment st env.info.ID
              ((r.strArgs.lookup "environment_source").getD "") := by
        simp [singleTenantSessionUpdate, requireString_discard_eq_getD]
      cases hd : w.isDirty source with
      | error e => simp [environmentCreateHandler, hopen, htitle, hguard, hc, hd, hupd]
      | ok p =>
        rcases p with ⟨dirty, status⟩
        cases dirty <;>
          simp [environmentCreateHandler, hopen, htitle, hguard, hc, hd, hupd]

/-- A single-tenant create request with title and source, allow_replace absent. -/
def requestCreateA : CallToolRequest :=
  ⟨[("environment_source", "src0"), ("title", "My work")], [], []⟩

/-- The same create request with allow_replace set to true. -/
def requestCreateB : CallToolRequest :=
  ⟨[("environment_source", "src0"), ("title", "My work")], [("allow_replace", true)], []⟩

/-- The environment sampleWorldOk.create returns for the title of requestCreateA. -/
def createdEnvSample : Environment := ⟨⟨"new-env", ⟨"My work", sampleConfig, 200⟩⟩, []⟩

/-- Witness for C1 (amended): with a current environment, creation without consent
    fails with the guard error and no Create call; with allow_replace=true it
    proceeds and records (new-env, src0). -/
theorem c1_amended_witness :
    ((environmentCreateHandler true true sampleWorldOk sessionWithEnv
        requestCreateA).result = Except.error (createGuardMessage "env0")
     ∧ (environmentCreateHandler true true sampleWorldOk sessionWithEnv
        requestCreateA).createCalled = false)
    ∧ ((environmentCreateHandler true true sampleWorldOk sessionWithEnv
        requestCreateB).createCalled = true
     ∧ (environmentCreateHandler true true sampleWorldOk sessionWithEnv
        requestCreateB).state = setCurrentEnvironment sessionWithEnv "new-env" "src0") := by
  have h1 := (c1_amended true sampleWorldOk sessionWithEnv requestCreateA).1
    (by decide) rfl "src0" rfl "My work" rfl
  have h2 := (c1_amended true sampleWorldOk sessionWithEnv requestCreateB).2
    (Or.inl rfl) rfl "src0" rfl "My work" rfl
  have h3 := h2.2 createdEnvSample rfl
  exact ⟨⟨h1.1, h1.2.1⟩, ⟨h2.1, h3⟩⟩

/-- An oracle on which FileWrite, FileEdit and FileDelete fail while everything
    else succeeds. -/
def worldFileOpFails : World :=
  { sampleWorldOk with
    fileWrite := fun _ _ _ _ => Except.error "disk full"
    fileEdit := fun _ _ _ _ _ _ => Except.error "disk full"
    fileDelete := fun _ _ _ => Except.error "disk full"
    run := fun _ _ _ _ => Except.error "exit status 1" }

/-- A file-write request with all arguments present. -/
def requestFileWrite : CallToolRequest :=
  ⟨[("environment_source", "src0"), ("environment_id", "env0"),
    ("target_file", "a.txt"), ("contents", "hello"),
    ("search_text", "a"), ("replace_text", "b")], [], []⟩

/-- C2 counterexample: when env.FileWrite fails, the environment_file_write handler
    returns immediately and UpdateFile is never invoked — the reconciliation is not
    best-effort for the file-mutating tools. -/
theorem c2_counterexample :
    worldFileOpFails.fileWrite sampleEnv "" "a.txt" "hello" = Except.error "disk full"
    ∧ (environmentFileWriteHandler false true worldFileOpFails ⟨"", ""⟩
        requestFileWrite).result = Except.error "failed to write file: disk full"
    ∧ (environmentFileWriteHandler false true worldFileOpFails ⟨"", ""⟩
        requestFileWrite).updateCalled = false :=
  ⟨rfl, rfl, rfl⟩

/-- C2 (amended): environment_run_cmd invokes the repository Update reconciliation
    whenever the environment was opened, even when the command itself failed; but
    the file-mutating tools environment_file_write, environment_file_edit and
    environment_file_delete skip Update / UpdateFile when the file operation fails,
    returning its error immediately. -/
theorem c2_amended (sT dP : Bool) (w : World) (st : SessionState) (r : CallToolRequest) :
    (∀ source env, openEnvironment sT dP w st r = Except.ok (source, env) →
      (environmentRunCmdHandler sT dP w st r).updateCalled = true)
    ∧ (∀ source env targetFile contents,
        openEnvironment sT dP w st r = Except.ok (source, env) →
        r.requireString "target_file" = Except.ok targetFile →
        r.requireString "contents" = Except.ok contents →
        isSuccess (w.fileWrite env (r.getString "explanation" "") targetFile contents)
          = false →
        (environmentFileWriteHandler sT dP w st r).updateCalled = false)
    ∧ (∀ source env targetFile search rep,
        openEnvironment sT dP w st r = Except.ok (source, env) →
        r.requireString "target_file" = Except.ok targetFile →
        r.requireString "search_text" = Except.ok search →
        r.requireString "replace_text" = Except.ok rep →
        isSuccess (w.fileEdit env (r.getString "explanation" "") targetFile search rep
          (r.getString "which_match" "")) = false →
        (environmentFileEditHandler sT dP w st r).updateCalled = false)
    ∧ (∀ source env targetFile,
        openEnvironment sT dP w st r = Except.ok (source, env) →
        r.requireString "target_file" = Except.ok targetFile →
        isSuccess (w.fileDelete env (r.getString "explanation" "") targetFile) = false →
        (environmentFileDeleteHandler sT dP w st r).updateCalled = false) := by
  refine ⟨?_, ?_, ?_, ?_⟩
  · intro source env ho
    simp only [environmentRunCmdHandler, ho]
    split
    · cases hu : w.update source env (r.getString "explanation" "") with
      | error e => simp [hu]
      | ok u =>
        cases hr : w.runBackground env (r.getString "command" "") (r.getString "shell" "sh")
            (r.getIntList "ports") (r.getBool "use_entrypoint" false) with
        | error e => simp [hu, hr]
        | ok endpoints => simp [hu, hr]
    · cases hu : w.update source env (r.getString "explanation" "") with
      | error e => simp [hu]
      | ok u =>
        cases hr : w.run env (r.getString "command" "") (r.getString "shell" "sh")
            (r.getBool "use_entrypoint" false) with
        | error e => simp [hu, hr]
        | ok stdout => simp [hu, hr]
  · intro source env targetFile contents ho ht hc hfail
    cases hw : w.fileWrite env (r.getString "explanation" "") targetFile contents with
    | error e => simp [environmentFileWriteHandler, ho, ht, hc, hw]
    | ok u => rw [hw] at hfail; simp [isSuccess] at hfail
  · intro source env targetFile search rep ho ht hs hr hfail
    cases hw : w.fileEdit env (r.getString "explanation" "") targetFile search rep
        (r.getString "which_match" "") with
    | error e => simp [environmentFileEditHandler, ho, ht, hs, hr, hw]
    | ok u => rw [hw] at hfail; simp [isSuccess] at hfail
  · intro source env targetFile ho ht hfail
    cases hw : w.fileDelete env (r.getString "explanation" "") targetFile with
    | error e => simp [environmentFileDeleteHandler, ho, ht, hw]
    | ok u => rw [hw] at hfail; simp [isSuccess] at hfail

/-- Witness for C2 (amended): with a failing command the run handler still updates;
    with a failing FileWrite the write handler does not. -/
theorem c2_amended_witness :
    (environmentRunCmdHandler false true worldFileOpFails ⟨"", ""⟩
      requestFileWrite).updateCalled = true
    ∧ (environmentFileWriteHandler false true worldFileOpFails ⟨"", ""⟩
      requestFileWrite).updateCalled = false := by
  have h := c2_amended false true worldFileOpFails ⟨"", ""⟩ requestFileWrite
  exact ⟨h.1 "src0" sampleEnv rfl, h.2.1 "src0" sampleEnv "a.txt" "hello" rfl rfl rfl rfl⟩

set_option maxRecDepth 4000 in
/-- Helper: the dirty warning decomposes into marshaled output, a prefix naming the
    repository, the IsDirty status, and a fixed tail. -/
theorem dirtyWarningText_decompose (out source status : String) :
    dirtyWarningText out source status
      = out
        ++ ("\n\nCRITICAL: You MUST inform the user that the repository " ++ source
          ++ " has uncommitted changes that are NOT included in this environment. The environment was created from the last committed state only.\n\nUncommitted changes detected:\n")
        ++ status
        ++ "\n\nYou MUST tell the user: To include these changes in the environment, they need to commit them first using git commands outside the environment." := by
  apply String.ext
  simp [dirtyWarningText, String.data_append, List.append_assoc]

/-- C6: for every successful environment_create call, if IsDirty reported a clean
    source tree the result text is exactly the marshaled environment response, and
    if it reported uncommitted changes the result text is the marshaled response
    followed by a warning embedding the IsDirty status output. -/
theorem c6_create_result (sT dP : Bool) (w : World) (st : SessionState)
    (r : CallToolRequest) (source title : String) (env : Environment) (dirty : Bool)
    (status : String) (res : CallToolResult) :
    openRepository sT w st r = Except.ok source →
    r.requireString "title" = Except.ok title →
    w.create source title (r.getString "explanation" "")
      (r.getString "from_git_ref" "HEAD") = Except.ok env →
    w.isDirty source = Except.ok (dirty, status) →
    (environmentCreateHandler sT dP w st r).result = Except.ok res →
    (dirty = false → res.text = marshalEnvironment env)
    ∧ (dirty = true →
        res.text = dirtyWarningText (marshalEnvironment env)
          (r.getString "environment_source" "") status
        ∧ ∃ mid tail, res.text = marshalEnvironment env ++ mid ++ status ++ tail) := by
  intro hopen htitle hcreate hdirty hres
  cases hg : createReplaceGuard sT st r with
  | some msg =>
    simp [environmentCreateHandler, hopen, htitle, hg] at hres
  | none =>
    cases dP with
    | false => simp [environmentCreateHandler, hopen, htitle, hg] at hres
    | true =>
      simp only [environmentCreateHandler, hopen, htitle, hg, hcreate, hdirty] at hres
      cases dirty with
      | false =>
        simp [NewToolResultText] at hres
        refine ⟨fun _ => ?_, fun hcontra => by simp at hcontra⟩
        rw [← hres]
      | true =>
        simp [NewToolResultText] at hres
        refine ⟨fun hcontra => by simp at hcontra, fun _ => ⟨?_, ?_⟩⟩
        · rw [← hres]
        · refine ⟨"\n\nCRITICAL: You MUST inform the user that the repository "
              ++ r.getString "environment_source" ""
              ++ " has uncommitted changes that are NOT included in this environment. The environment was created from the last committed state only.\n\nUncommitted changes detected:\n",
            "\n\nYou MUST tell the user: To include these changes in the environment, they need to commit them first using git commands outside the environment.",
            ?_⟩
          rw [← hres]
          exact dirtyWarningText_decompose (marshalEnvironment env)
            (r.getString "environment_source" "") status

/-- Witness for C6: on the clean sample oracle the create result text is exactly
    the marshaled response of the created environment. -/
theorem c6_create_result_witness :
    (environmentCreateHandler false true sampleWorldOk ⟨"", ""⟩ requestCreateA).result
      = Except.ok (NewToolResultText (marshalEnvironment createdEnvSample))
    ∧ (NewToolResultText (marshalEnvironment createdEnvSample)).text
      = marshalEnvironment createdEnvSample := by
  refine ⟨rfl, ?_⟩
  have h := c6_create_result false true sampleWorldOk ⟨"", ""⟩ requestCreateA "src0"
    "My work" createdEnvSample false "" (NewToolResultText (marshalEnvironment createdEnvSample))
    rfl rfl rfl rfl rfl
  exact h.1 rfl

end ContainerUse
